import Mathlib

/-!
# Verification of the document-intake text-extraction pipeline

Shallow embedding of the extraction core of `src/agent.py`:
`contains_devanagari`, `robust_decode`, `extract_text_with_pypdf`,
`extract_text_from_pdf` (the five-stage cascade), `extract_text_from_image`
and `extract_text_any`.

External libraries (PyMuPDF/`fitz`, `pdfminer`, `pytesseract`, `PIL`,
`pypdf`) are opaque capability providers: an `Env` record carries, for one
extraction call, which providers are importable and what each provider call
would return (or which exception message it would raise, as `Except.error`).
Every `try/except` of the source is embedded as a `match` on the
corresponding `Except` field, placed exactly where the source catches.
Python strings are Lean `String`s (`len` is the character count, as in
Python); byte buffers are lists of byte values.
-/

namespace ZpAgent

/-- A raw byte buffer: each entry is one byte value (0–255). -/
abbrev Bytes := List Nat

/-- Python `str.strip()` on a character list: drop leading and trailing
whitespace. -/
def stripChars (cs : List Char) : List Char :=
  ((cs.dropWhile Char.isWhitespace).reverse.dropWhile Char.isWhitespace).reverse

/-- Python `str.strip()`. -/
def strip (s : String) : String := ⟨stripChars s.data⟩

/-- Python `sep.join(xs)`. -/
def joinSep (sep : String) : List String → String
  | [] => ""
  | [x] => x
  | x :: y :: xs => x ++ sep ++ joinSep sep (y :: xs)

/-- Python `name.lower()` (ASCII case folding; the extension checks in
`extract_text_any` only involve ASCII suffixes). -/
def lowerStr (s : String) : String := ⟨s.data.map Char.toLower⟩

/-- Python `s.endswith(suffix)`. -/
def endsWith (s suffix : String) : Bool :=
  decide (s.data.drop (s.data.length - suffix.data.length) = suffix.data)
  && decide (suffix.data.length ≤ s.data.length)

/-- `contains_devanagari` (src/agent.py lines 188–189): true when
`DEVANAGARI_RE = re.compile(r'[ऀ-ॿ]')` finds a match, i.e. when
some character of the string lies in U+0900..U+097F. -/
def contains_devanagari (s : String) : Bool :=
  s.data.any fun c => decide (0x0900 ≤ c.toNat ∧ c.toNat ≤ 0x097F)

/-- Outcome of materializing the temporary PDF file
(src/agent.py lines 230–234): `NamedTemporaryFile(delete=False)` either
raises before the file exists (`createFail`), creates the file but raises
during `tmp.write` so `pdf_path` is never assigned (`writeFail`), or
succeeds (`ok`, with `pdf_path` set). -/
inductive TmpOutcome where
  | createFail (e : String)
  | writeFail (e : String)
  | ok
deriving DecidableEq

/-- The opaque capability providers for one extraction call: availability
flags from `_lazy_imports()` plus the value (or exception message) each
provider call would produce on this input. -/
structure Env where
  /-- PyMuPDF (`fitz`) importable. -/
  fitz : Bool
  /-- `pdfminer.high_level.extract_text` importable. -/
  pdfminer : Bool
  /-- `pytesseract` importable. -/
  pytesseract : Bool
  /-- `PIL.Image` importable. -/
  pil : Bool
  /-- `pypdf.PdfReader` importable. -/
  pypdf : Bool
  /-- Outcome of writing the scoped temporary PDF file. -/
  tmp : TmpOutcome
  /-- Whether the final `os.unlink(pdf_path)` succeeds. -/
  unlinkOk : Bool
  /-- Stage A: the per-page `p.get_text("text")` results, or the exception
  raised inside the stage-A `try`. -/
  fitzPages : Except String (List String)
  /-- Stage B: the `b[4]` texts of the per-page blocks of length ≥ 5, in the
  order the source processes them (after sorting each page's blocks by
  rounded position), or the exception raised inside the stage-B `try`.
  A `None` b[4] is modelled as `""` (the source applies `or ""`). -/
  fitzBlockTexts : Except String (List String)
  /-- Stage C: result of `pdfminer_extract_text(pdf_path)` (`none` models a
  `None` return, folded by `or ""`), or the raised exception. -/
  pdfminerText : Except String (Option String)
  /-- Stage D: result of opening the reader and iterating pages: an outer
  exception, or one entry per page — that page's `extract_text()` result
  (`none` models `None`, folded by `or ""`) or the per-page exception. -/
  pypdfPages : Except String (List (Except String (Option String)))
  /-- Stage E: the per-page OCR strings (there is no per-page `try`, so any
  page failure aborts the whole stage), or the raised exception. -/
  ocrPages : Except String (List String)
  /-- `extract_text_from_image`: the OCR result on the full image, or the
  raised exception. -/
  imageOcr : Except String (Option String)
  /-- `bytes.decode(enc)` for this call's byte buffer: `some` decoded text
  or `none` when the codec raises. -/
  decodeEnc : String → Option String

/-- The encodings `robust_decode` tries, in the source's order
(src/agent.py line 192). -/
def ENCODINGS : List String := ["utf-8", "utf-8-sig", "utf-16", "utf-16le", "utf-16be"]

/-- `b.decode("latin-1", errors="ignore")`: latin-1 maps every byte value
0–255 to the code point of the same value, so the `ignore` handler never
fires and no byte is dropped. -/
def latin1_ignore (b : Bytes) : String := ⟨b.map Char.ofNat⟩

/-- The `for enc in (...)` loop of `robust_decode`: first encoding that
decodes without raising. -/
def firstDecode (dec : String → Option String) : List String → Option String
  | [] => none
  | enc :: rest =>
    match dec enc with
    | some s => some s
    | none => firstDecode dec rest

/-- `robust_decode` (src/agent.py lines 191–195): try the structured
encodings in order; if every attempt raises, fall back to latin-1 with
best-effort substitution. -/
def robust_decode (env : Env) (b : Bytes) : String :=
  match firstDecode env.decodeEnc ENCODINGS with
  | some s => s
  | none => latin1_ignore b

/-- Whether `pdf_path` was assigned (only when the temporary file was both
created and written). -/
def pdfPathSet (env : Env) : Bool :=
  match env.tmp with
  | .ok => true
  | _ => false

/-- Whether `NamedTemporaryFile(delete=False)` put a file on disk (it does
so immediately on creation, even if the subsequent write raises). -/
def tmpFileCreated (env : Env) : Bool :=
  match env.tmp with
  | .createFail _ => false
  | _ => true

/-- Log entries produced by the temporary-file block (lines 230–234). -/
def tmpLogs (env : Env) : List String :=
  match env.tmp with
  | .ok => []
  | .createFail e => [s!"tmp pdf write failed: {e}"]
  | .writeFail e => [s!"tmp pdf write failed: {e}"]

/-- Stage A (lines 237–244), "PyMuPDF direct text": join the per-page texts
with newlines and strip; on exception the running text stays `""` and the
failure is logged. Nothing happens (and nothing is logged) when `fitz` is
unavailable. -/
def stageA (env : Env) : String × List String :=
  if env.fitz then
    match env.fitzPages with
    | .ok parts => (strip (joinSep "\n" parts), [])
    | .error e => ("", [s!"fitz text failed: {e}"])
  else ("", [])

/-- The stage-B trigger (line 248): `fitz and (not contains_devanagari(text)
or len(text) < 50)`. -/
def stageB_guard (env : Env) (text : String) : Bool :=
  env.fitz && (!contains_devanagari text || decide (text.length < 50))

/-- Lines 250–260: keep each block's stripped text when nonempty, join with
newlines, strip the result. -/
def blocksJoin (blockTexts : List String) : String :=
  strip (joinSep "\n" (blockTexts.filterMap fun b =>
    let t := strip b
    if t = "" then none else some t))

/-- Stage B (lines 247–264), "PyMuPDF blocks": when triggered, the block
text replaces the running best only if longer or newly Devanagari-bearing;
an exception inside the stage is caught and logged, leaving the text
unchanged. -/
def stageB (env : Env) (text : String) : String × List String :=
  if stageB_guard env text then
    match env.fitzBlockTexts with
    | .ok bs =>
      let textB := blocksJoin bs
      if decide (textB.length > text.length)
          || (contains_devanagari textB && !contains_devanagari text) then
        (textB, [])
      else (text, [])
    | .error e => (text, [s!"fitz blocks failed: {e}"])
  else (text, [])

/-- The stage-C trigger (line 267): `(not contains_devanagari(text)) and
pdfminer_extract_text and pdf_path`. -/
def stageC_guard (env : Env) (text : String) : Bool :=
  !contains_devanagari text && env.pdfminer && pdfPathSet env

/-- Stage C (lines 267–273), "pdfminer (secondary)": adopt `t2` if it
contains Devanagari or is strictly longer. -/
def stageC (env : Env) (text : String) : String × List String :=
  if stageC_guard env text then
    match env.pdfminerText with
    | .ok r =>
      let t2 := r.getD ""
      if contains_devanagari t2 || decide (t2.length > text.length) then (t2, [])
      else (text, [])
    | .error e => (text, [s!"pdfminer failed: {e}"])
  else (text, [])

/-- `extract_text_with_pypdf` (src/agent.py lines 204–219). An outer
exception is modelled as failing before any page was read; per-page
exceptions are logged (`pypdf page error`) and contribute no part. -/
def extract_text_with_pypdf (env : Env) : String × List String :=
  if !env.pypdf then ("", ["pypdf not available"])
  else
    match env.pypdfPages with
    | .error e => ("", [s!"pypdf failed: {e}"])
    | .ok pages =>
      let parts := pages.filterMap fun r =>
        match r with
        | .ok t => some (t.getD "")
        | .error _ => none
      let pageLogs := pages.filterMap fun r =>
        match r with
        | .ok _ => none
        | .error e => some s!"pypdf page error: {e}"
      (strip (joinSep "\n" parts), pageLogs ++ ["pypdf extracted"])

/-- The stage-D trigger (line 276): `len(text) < 50`. -/
def stageD_guard (text : String) : Bool := decide (text.length < 50)

/-- Stage D (lines 276–280), "pypdf (pure Python fallback)": its logs are
always appended; `t3` is adopted if strictly longer or Devanagari-bearing
(even when the running best already contains Devanagari). -/
def stageD (env : Env) (text : String) : String × List String :=
  if stageD_guard text then
    let r := extract_text_with_pypdf env
    if decide (r.1.length > text.length) || contains_devanagari r.1 then (r.1, r.2)
    else (text, r.2)
  else (text, [])

/-- The stage-E trigger (line 283): `len(text) < 80 and not
contains_devanagari(text)`. -/
def stageE_guard (text : String) : Bool :=
  decide (text.length < 80) && !contains_devanagari text

/-- Stage E (lines 283–300), "OCR (as last resort)": requires `fitz`,
`pytesseract` and `PIL` together (otherwise a distinct skip entry is
logged); joins per-page OCR output with blank lines; adopts if longer or
Devanagari-bearing; an exception is caught and logged. -/
def stageE (env : Env) (text : String) : String × List String :=
  if stageE_guard text then
    if env.fitz && env.pytesseract && env.pil then
      match env.ocrPages with
      | .ok pages =>
        let ocr_text := strip (joinSep "\n\n" pages)
        if decide (ocr_text.length > text.length) || contains_devanagari ocr_text then
          (ocr_text, [])
        else (text, [])
      | .error e => (text, [s!"OCR pipeline failed: {e}"])
    else (text, ["OCR skipped (fitz/pytesseract/PIL missing)."])
  else (text, [])

/-- The running best text after stage A. -/
def afterA (env : Env) : String := (stageA env).1

/-- The running best text after stage B. -/
def afterB (env : Env) : String := (stageB env (afterA env)).1

/-- The running best text after stage C. -/
def afterC (env : Env) : String := (stageC env (afterB env)).1

/-- The running best text after stage D. -/
def afterD (env : Env) : String := (stageD env (afterC env)).1

/-- The running best text after stage E. -/
def afterE (env : Env) : String := (stageE env (afterD env)).1

/-- Result of one `extract_text_from_pdf` call: the returned text and logs,
plus whether a temporary file is still on disk after the call returns. -/
structure PdfOut where
  text : String
  logs : List String
  tmpLeft : Bool
deriving DecidableEq

/-- `extract_text_from_pdf` (src/agent.py lines 221–306): the five-stage
cascade. The final `os.unlink(pdf_path)` runs only when `pdf_path` was
assigned, and its own failure is swallowed by `except Exception: pass`, so
a file remains on disk exactly when it was created but either `pdf_path`
was never assigned or the unlink failed. The function returns
`text.strip()` and the accumulated logs. -/
def extract_text_from_pdf (env : Env) : PdfOut :=
  { text := strip (afterE env)
    logs := tmpLogs env ++ (stageA env).2 ++ (stageB env (afterA env)).2
        ++ (stageC env (afterB env)).2 ++ (stageD env (afterC env)).2
        ++ (stageE env (afterD env)).2
    tmpLeft := tmpFileCreated env && !(pdfPathSet env && env.unlinkOk) }

/-- `extract_text_from_image` (src/agent.py lines 308–319). -/
def extract_text_from_image (env : Env) : String × List String :=
  if !(env.pytesseract && env.pil) then ("", ["OCR not available"])
  else
    match env.imageOcr with
    | .ok r => (strip (r.getD ""), ["Image OCR ok"])
    | .error e => ("", [s!"Image OCR fail: {e}"])

/-- The raster-image extensions recognized by `extract_text_any`
(src/agent.py line 330). -/
def IMAGE_EXTS : List String := [".png", ".jpg", ".jpeg", ".webp", ".tif", ".tiff"]

/-- `extract_text_any` (src/agent.py lines 321–334): dispatch on the
lowercased filename suffix. The surrounding `try/except` of the source can
only catch exceptions escaping the callees; every callee is total in this
model (all of their internal raise sites are caught locally, as in the
source), so the handler branch is unreachable and does not appear. -/
def extract_text_any (env : Env) (name : String) (data : Bytes) : String × List String :=
  let lname := lowerStr name
  let logs := [s!"File: {name} ({data.length} bytes)"]
  if endsWith lname ".txt" then (robust_decode env data, logs ++ ["Read .txt (robust)"])
  else if endsWith lname ".pdf" then
    let r := extract_text_from_pdf env
    (r.text, logs ++ r.logs)
  else if IMAGE_EXTS.any (fun ext => endsWith lname ext) then
    let r := extract_text_from_image env
    (r.1, logs ++ r.2)
  else ("", logs ++ ["Unsupported file type."])

/-- Modelled from the spec: the AdequacyPolicy, `adequate(text) = len(text)
>= MIN_LEN and (has_target_script(text) or MIN_LEN is generously large)`.
At the stage-2 gate `MIN_LEN = 50`, which the spec does not consider
"generously large", so that disjunct is false. This definition follows the
spec's words, for comparison with the stage-B trigger taken from the
source. -/
def adequateSpec (text : String) : Bool :=
  decide (50 ≤ text.length) && contains_devanagari text

/-! ## Concrete environments used to instantiate the theorems -/

/-- A benign environment: every capability importable, the temporary file
written, every provider succeeding with empty output, every codec raising
(so `robust_decode` reaches its fallback). -/
def baseEnv : Env :=
  { fitz := true, pdfminer := true, pytesseract := true, pil := true, pypdf := true
    tmp := .ok, unlinkOk := true
    fitzPages := .ok [], fitzBlockTexts := .ok [], pdfminerText := .ok none
    pypdfPages := .ok [], ocrPages := .ok [], imageOcr := .ok none
    decodeEnc := fun _ => none }

/-- Every provider call raises (with the given messages) even though every
capability is importable: the worst runtime-failure case. -/
def allErrEnv (e1 e2 e3 e4 e5 e6 : String) : Env :=
  { baseEnv with
    fitzPages := .error e1, fitzBlockTexts := .error e2, pdfminerText := .error e3
    pypdfPages := .error e4, ocrPages := .error e5, imageOcr := .error e6 }

/-- Stage 1 yields a short Devanagari text; the pypdf stage then returns an
even shorter Devanagari text. -/
def envC2 : Env :=
  { baseEnv with fitzPages := .ok ["कखग"], pypdfPages := .ok [.ok (some "क")] }

/-- Stages B and D both produce plain ASCII text longer than the running
best. -/
def envC2w : Env :=
  { baseEnv with
    fitzBlockTexts := .ok ["hello there friend"]
    pypdfPages := .ok [.ok (some "hello world, a much longer page text")] }

/-- A 50-character Devanagari text: long enough that the pypdf and OCR
stages are not triggered once adopted. -/
def devLong : String := ⟨List.replicate 50 'क'⟩

/-- The primary engine (`fitz`) is unavailable; every other capability is
importable and `pdfminer` succeeds with a long Devanagari text. -/
def envC6 : Env :=
  { baseEnv with fitz := false, pdfminerText := .ok (some devLong) }

/-- Only the primary engine is unavailable. -/
def envC6w : Env := { baseEnv with fitz := false }

/-- The temporary file is created but writing the PDF bytes into it
raises. -/
def envC9 : Env := { baseEnv with tmp := .writeFail "disk full" }

/-! ## Theorems -/

/-- C1: For every input byte buffer and declared kind, the extraction
pipeline never raises to the caller: even when every provider call raises,
each failure is caught and logged into the trace, the running text is left
unchanged, and the pipeline returns normally — in the worst case an empty
string plus a trace listing every caught failure, for PDF, text and image
kinds alike (the text kind falls through every codec to the total latin-1
fallback). -/
theorem extract_absorbs_all_failures (e1 e2 e3 e4 e5 e6 : String) (data : Bytes) :
    extract_text_from_pdf (allErrEnv e1 e2 e3 e4 e5 e6)
      = ⟨"", [s!"fitz text failed: {e1}", s!"fitz blocks failed: {e2}",
              s!"pdfminer failed: {e3}", s!"pypdf failed: {e4}",
              s!"OCR pipeline failed: {e5}"], false⟩
  ∧ extract_text_any (allErrEnv e1 e2 e3 e4 e5 e6) "scan.pdf" data
      = ("", [s!"File: scan.pdf ({data.length} bytes)",
              s!"fitz text failed: {e1}", s!"fitz blocks failed: {e2}",
              s!"pdfminer failed: {e3}", s!"pypdf failed: {e4}",
              s!"OCR pipeline failed: {e5}"])
  ∧ extract_text_any (allErrEnv e1 e2 e3 e4 e5 e6) "note.txt" data
      = (latin1_ignore data, [s!"File: note.txt ({data.length} bytes)", "Read .txt (robust)"])
  ∧ extract_text_any (allErrEnv e1 e2 e3 e4 e5 e6) "photo.png" data
      = ("", [s!"File: photo.png ({data.length} bytes)", s!"Image OCR fail: {e6}"]) :=
  ⟨rfl, rfl, rfl, rfl⟩

/-- C2 (counterexample): the claim "the adopted text's length and
script-completeness at stage k are never worse than at stage k−1, under a
longer-or-newly-script replacement rule" is false: in `envC2` the running
best after stage C is the three-character Devanagari text "कखग", and the
pypdf stage (stage D) replaces it by the strictly shorter "क" even though
the previous best already contained Devanagari — the replacement is
neither longer nor newly script-bearing. -/
theorem stageD_adopts_shorter_script_text :
    afterC envC2 = "कखग" ∧ afterD envC2 = "क"
  ∧ (afterD envC2).length < (afterC envC2).length
  ∧ contains_devanagari (afterC envC2) = true
  ∧ contains_devanagari (afterD envC2) = true := by decide

/-- C2 (amended): no stage blindly overwrites the running best. Whenever a
stage changes the running text, the new text is strictly longer or contains
Devanagari; at stages B, C and E the Devanagari alternative moreover holds
"newly" (the previous best lacked the script), while the pypdf stage D only
guarantees longer-or-script-bearing and may adopt a shorter script text
even when the previous best already contained the script. -/
theorem replacement_rule_guarded (env : Env) (t : String) :
    ((stageB env t).1 ≠ t →
      t.length < (stageB env t).1.length
      ∨ (contains_devanagari (stageB env t).1 = true ∧ contains_devanagari t = false))
  ∧ ((stageC env t).1 ≠ t →
      t.length < (stageC env t).1.length
      ∨ (contains_devanagari (stageC env t).1 = true ∧ contains_devanagari t = false))
  ∧ ((stageD env t).1 ≠ t →
      t.length < (stageD env t).1.length ∨ contains_devanagari (stageD env t).1 = true)
  ∧ ((stageE env t).1 ≠ t →
      t.length < (stageE env t).1.length
      ∨ (contains_devanagari (stageE env t).1 = true ∧ contains_devanagari t = false)) := by
  refine ⟨?_, ?_, ?_, ?_⟩
  · intro hne
    by_cases hg : stageB_guard env t = true
    · cases hfb : env.fitzBlockTexts with
      | ok bs =>
        simp only [stageB, hg, if_true, hfb] at hne ⊢
        by_cases hc : (decide ((blocksJoin bs).length > t.length)
            || (contains_devanagari (blocksJoin bs) && !contains_devanagari t)) = true
        · simp only [hc, if_true] at hne ⊢
          simpa [Bool.or_eq_true, Bool.and_eq_true, Bool.not_eq_true'] using hc
        · simp only [hc, if_false] at hne; exact absurd rfl hne
      | error e =>
        simp only [stageB, hg, if_true, hfb] at hne; exact absurd rfl hne
    · simp only [stageB, hg, if_false] at hne; exact absurd rfl hne
  · intro hne
    by_cases hg : stageC_guard env t = true
    · cases hfc : env.pdfminerText with
      | ok r =>
        simp only [stageC, hg, if_true, hfc] at hne ⊢
        by_cases hc : (contains_devanagari (r.getD "")
            || decide ((r.getD "").length > t.length)) = true
        · simp only [hc, if_true] at hne ⊢
          have hg' : contains_devanagari t = false := by
            simp only [stageC_guard, Bool.and_eq_true, Bool.not_eq_true'] at hg
            exact hg.1.1
          rcases (by simpa [Bool.or_eq_true] using hc) with h | h
          · exact Or.inr ⟨h, hg'⟩
          · exact Or.inl h
        · simp only [hc, if_false] at hne; exact absurd rfl hne
      | error e =>
        simp only [stageC, hg, if_true, hfc] at hne; exact absurd rfl hne
    · simp only [stageC, hg, if_false] at hne; exact absurd rfl hne
  · intro hne
    by_cases hg : stageD_guard t = true
    · simp only [stageD, hg, if_true] at hne ⊢
      by_cases hc : (decide ((extract_text_with_pypdf env).1.length > t.length)
          || contains_devanagari (extract_text_with_pypdf env).1) = true
      · simp only [hc, if_true] at hne ⊢
        simpa [Bool.or_eq_true] using hc
      · simp only [hc, if_false] at hne; exact absurd rfl hne
    · simp only [stageD, hg, if_false] at hne; exact absurd rfl hne
  · intro hne
    by_cases hg : stageE_guard t = true
    · have hg' : contains_devanagari t = false := by
        simp only [stageE_guard, Bool.and_eq_true, Bool.not_eq_true'] at hg
        exact hg.2
      by_cases hcap : (env.fitz && env.pytesseract && env.pil) = true
      · cases hoc : env.ocrPages with
        | ok pages =>
          simp only [stageE, hg, if_true, hcap, hoc] at hne ⊢
          by_cases hc : (decide ((strip (joinSep "\n\n" pages)).length > t.length)
              || contains_devanagari (strip (joinSep "\n\n" pages))) = true
          · simp only [hc, if_true] at hne ⊢
            rcases (by simpa [Bool.or_eq_true] using hc) with h | h
            · exact Or.inl h
            · exact Or.inr ⟨h, hg'⟩
          · simp only [hc, if_false] at hne; exact absurd rfl hne
        | error e =>
          simp only [stageE, hg, if_true, hcap, hoc] at hne; exact absurd rfl hne
      · simp only [stageE, hg, if_true, hcap, if_false] at hne; exact absurd rfl hne
    · simp only [stageE, hg, if_false] at hne; exact absurd rfl hne

/-- C2 (witness): in `envC2w`, stages B and D both change the running best
"ab", and the guarded-replacement guarantees hold there. -/
theorem replacement_rule_guarded_witness :
    (("ab" : String).length < (stageB envC2w "ab").1.length
      ∨ (contains_devanagari (stageB envC2w "ab").1 = true
          ∧ contains_devanagari "ab" = false))
  ∧ (("ab" : String).length < (stageD envC2w "ab").1.length
      ∨ contains_devanagari (stageD envC2w "ab").1 = true) :=
  ⟨(replacement_rule_guarded envC2w "ab").1 (by decide),
   (replacement_rule_guarded envC2w "ab").2.2.1 (by decide)⟩

/-- C3: with the primary engine available, the block-reflow stage (stage 2)
is triggered if and only if stage 1's result is inadequate under the
AdequacyPolicy `adequate(text) = len(text) >= 50 and
contains_devanagari(text)` — the source's trigger `not contains_devanagari
or len < 50` is exactly the negation of the spec's adequacy formula. -/
theorem stageB_trigger_iff_inadequate (env : Env) (h : env.fitz = true) :
    stageB_guard env (afterA env) = !adequateSpec (afterA env) := by
  simp only [stageB_guard, adequateSpec, h, Bool.true_and, Bool.not_and]
  cases hd : contains_devanagari (afterA env) <;>
    cases Nat.lt_or_ge (afterA env).length 50 <;>
      simp_all [Nat.not_lt, Nat.not_le]

/-- C3 (witness): instantiated at `baseEnv`, whose primary engine is
available. -/
theorem stageB_trigger_iff_inadequate_witness :
    baseEnv.fitz = true
  ∧ stageB_guard baseEnv (afterA baseEnv) = !adequateSpec (afterA baseEnv) :=
  ⟨rfl, stageB_trigger_iff_inadequate baseEnv rfl⟩

/-- C4: the script-presence predicate holds exactly when some character of
the string lies in the Unicode range 0x0900–0x097F; in particular it is
true on "रहिवासी", false on "residency" and false on "". -/
theorem contains_devanagari_spec :
    (∀ s : String,
      contains_devanagari s = true ↔ ∃ c ∈ s.data, 0x0900 ≤ c.toNat ∧ c.toNat ≤ 0x097F)
  ∧ contains_devanagari "रहिवासी" = true
  ∧ contains_devanagari "residency" = false
  ∧ contains_devanagari "" = false := by
  refine ⟨fun s => ?_, by decide, by decide, by decide⟩
  simp [contains_devanagari, List.any_eq_true]

/-- C4 (witness): the characterization applied at the one-character string
"ॐ" (U+0950, inside the range). -/
theorem contains_devanagari_spec_witness : contains_devanagari "ॐ" = true :=
  (contains_devanagari_spec.1 "ॐ").2 ⟨'ॐ', by decide, by decide⟩

/-- C5: decoding of text-kind input is total and layered: the first
structured encoding (UTF-8) is used when it succeeds, and when every
structured encoding in `ENCODINGS` raises, `robust_decode` unconditionally
falls back to latin-1 best-effort decoding — which itself never fails and
maps every single byte to a character, so a string is always returned. -/
theorem robust_decode_total_fallback (env : Env) (b : Bytes) :
    (∀ s, env.decodeEnc "utf-8" = some s → robust_decode env b = s)
  ∧ ((∀ enc ∈ ENCODINGS, env.decodeEnc enc = none) →
      robust_decode env b = latin1_ignore b ∧ (latin1_ignore b).length = b.length) := by
  constructor
  · intro s hs
    simp [robust_decode, ENCODINGS, firstDecode, hs]
  · intro h
    refine ⟨?_, by simp [latin1_ignore, String.length]⟩
    have h1 := h "utf-8" (by simp [ENCODINGS])
    have h2 := h "utf-8-sig" (by simp [ENCODINGS])
    have h3 := h "utf-16" (by simp [ENCODINGS])
    have h4 := h "utf-16le" (by simp [ENCODINGS])
    have h5 := h "utf-16be" (by simp [ENCODINGS])
    simp [robust_decode, ENCODINGS, firstDecode, h1, h2, h3, h4, h5]

/-- C5 (witness): in `baseEnv` every codec raises, and the bytes
`[72, 105, 255]` (the last not valid UTF-8) decode to the three-character
latin-1 fallback string. -/
theorem robust_decode_total_fallback_witness :
    robust_decode baseEnv [72, 105, 255] = latin1_ignore [72, 105, 255]
  ∧ (latin1_ignore [72, 105, 255]).length = 3 :=
  (robust_decode_total_fallback baseEnv [72, 105, 255]).2 (by decide)

/-- C6 (counterexample): the claim that the trace records a
`CapabilityUnavailable` entry for stage 1 when the primary engine is
unavailable is false: in `envC6` (`fitz` unavailable, `pdfminer` available
and succeeding with a long Devanagari text) the secondary stage is still
attempted and adopted, but the returned trace is empty — no entry of any
kind records that stage 1 was skipped. -/
theorem missing_fitz_leaves_no_stage1_entry :
    envC6.fitz = false
  ∧ extract_text_from_pdf envC6 = ⟨devLong, [], false⟩ := by decide

/-- C6 (amended): when the primary engine is unavailable, stages 1 and 2
are skipped silently — no trace entry, text unchanged; stages 3 and 4
behave exactly as they would with the engine present (they are attempted as
their own capabilities allow); stage 5, which also requires the primary
engine, is not attempted, and when its quality guard triggers it logs the
distinct skip entry "OCR skipped (fitz/pytesseract/PIL missing)." — but no
`CapabilityUnavailable` entry is recorded for stage 1. -/
theorem missing_fitz_degrades_silently (env : Env) (t : String) (h : env.fitz = false) :
    stageA env = ("", [])
  ∧ stageB env t = (t, [])
  ∧ stageC env t = stageC { env with fitz := true } t
  ∧ stageD env t = stageD { env with fitz := true } t
  ∧ (t.length < 80 → contains_devanagari t = false →
      stageE env t = (t, ["OCR skipped (fitz/pytesseract/PIL missing)."])) := by
  refine ⟨by simp [stageA, h], by simp [stageB, stageB_guard, h], rfl, rfl, ?_⟩
  intro h1 h2
  simp [stageE, stageE_guard, h, h1, h2]

/-- C6 (amended, witness): instantiated at `envC6w` (only `fitz`
unavailable) and the running best "x". -/
theorem missing_fitz_degrades_silently_witness :
    stageA envC6w = ("", [])
  ∧ stageB envC6w "x" = ("x", [])
  ∧ stageE envC6w "x" = ("x", ["OCR skipped (fitz/pytesseract/PIL missing)."]) :=
  ⟨(missing_fitz_degrades_silently envC6w "x" rfl).1,
   (missing_fitz_degrades_silently envC6w "x" rfl).2.1,
   (missing_fitz_degrades_silently envC6w "x" rfl).2.2.2.2 (by decide) (by decide)⟩

/-- C7: the trace returned by an extraction call is never empty: whatever
the environment, filename and bytes, the first trace entry is always the
"File: ... bytes" record, on the fully successful paths included. -/
theorem trace_never_empty (env : Env) (name : String) (data : Bytes) :
    ∃ rest, (extract_text_any env name data).2
      = s!"File: {name} ({data.length} bytes)" :: rest := by
  simp only [extract_text_any]
  split
  · exact ⟨_, rfl⟩
  · split
    · exact ⟨_, rfl⟩
    · split
      · exact ⟨_, rfl⟩
      · exact ⟨_, rfl⟩

/-- C8: extraction is deterministic — two calls on identical bytes, with an
identical filename and identical capability availability and provider
results, return identical text and identical trace content. -/
theorem extract_deterministic (env₁ env₂ : Env) (name₁ name₂ : String)
    (data₁ data₂ : Bytes)
    (henv : env₁ = env₂) (hname : name₁ = name₂) (hdata : data₁ = data₂) :
    extract_text_any env₁ name₁ data₁ = extract_text_any env₂ name₂ data₂ := by
  subst henv hname hdata
  rfl

/-- C8 (witness): two identical calls at `baseEnv`. -/
theorem extract_deterministic_witness :
    extract_text_any baseEnv "case.txt" [65, 66]
      = extract_text_any baseEnv "case.txt" [65, 66] :=
  extract_deterministic baseEnv baseEnv "case.txt" "case.txt" [65, 66] [65, 66] rfl rfl rfl

/-- C9 (counterexample): the claim that the temporary file is removed on
every exit path is false: in `envC9` the file is created but the write into
it raises, the exception is caught ("tmp pdf write failed: disk full" is
the first trace entry), `pdf_path` is never assigned, the final unlink is
therefore skipped, and the call returns with the temporary file still on
disk. -/
theorem tmp_file_leak_on_write_failure :
    (extract_text_from_pdf envC9).tmpLeft = true
  ∧ (extract_text_from_pdf envC9).logs.head?
      = some "tmp pdf write failed: disk full" := by decide

/-- C9 (amended): the temporary file is removed before the pipeline
returns whenever it was fully materialized (created and written, so
`pdf_path` was assigned) and the final unlink itself succeeds; when the
creation itself fails no file exists; but a failure while writing the
already-created file, or a failure of the unlink, leaves the file behind
(both exceptions are swallowed). -/
theorem tmp_file_removed_when_materialized (env : Env) :
    (env.tmp = TmpOutcome.ok → env.unlinkOk = true →
      (extract_text_from_pdf env).tmpLeft = false)
  ∧ (∀ e, env.tmp = TmpOutcome.createFail e →
      (extract_text_from_pdf env).tmpLeft = false) := by
  constructor
  · intro h1 h2
    simp [extract_text_from_pdf, tmpFileCreated, pdfPathSet, h1, h2]
  · intro e h
    simp [extract_text_from_pdf, tmpFileCreated, pdfPathSet, h]

/-- C9 (amended, witness): at `baseEnv` the file is materialized, the
unlink succeeds, and no file is left behind. -/
theorem tmp_file_removed_when_materialized_witness :
    (extract_text_from_pdf baseEnv).tmpLeft = false :=
  (tmp_file_removed_when_materialized baseEnv).1 rfl rfl

/-- C10: when the lowercased filename ends in none of ".txt", ".pdf" or the
recognized image extensions, `extract_text_any` returns the empty string
with a two-entry trace whose final entry is "Unsupported file type.",
without raising. -/
theorem unsupported_extension_returns_empty (env : Env) (name : String) (data : Bytes)
    (h1 : endsWith (lowerStr name) ".txt" = false)
    (h2 : endsWith (lowerStr name) ".pdf" = false)
    (h3 : IMAGE_EXTS.any (fun ext => endsWith (lowerStr name) ext) = false) :
    extract_text_any env name data
      = ("", [s!"File: {name} ({data.length} bytes)", "Unsupported file type."])
  ∧ (extract_text_any env name data).2.getLast? = some "Unsupported file type." := by
  have hmain : extract_text_any env name data
      = ("", [s!"File: {name} ({data.length} bytes)", "Unsupported file type."]) := by
    simp only [extract_text_any, h1, h2, h3, Bool.false_eq_true, if_false]
    rfl
  exact ⟨hmain, by rw [hmain]; rfl⟩

/-- C10 (witness): a ".docx" upload at `baseEnv`. -/
theorem unsupported_extension_returns_empty_witness :
    extract_text_any baseEnv "report.docx" [1, 2]
      = ("", ["File: report.docx (2 bytes)", "Unsupported file type."])
  ∧ (extract_text_any baseEnv "report.docx" [1, 2]).2.getLast?
      = some "Unsupported file type." :=
  unsupported_extension_returns_empty baseEnv "report.docx" [1, 2]
    (by decide) (by decide) (by decide)

end ZpAgent
